import Mathlib

/-!
Shallow embedding of `sktime/transformations/series/filter.py` (class `Filter`).

The source is a thin adapter: `Filter.__init__` validates the scalar
parameters `sfreq`, `l_freq`, `h_freq` and stores them together with
`filter_kwargs`; `Filter._transform` transposes 2-dimensional inputs,
delegates to `mne.filter.filter_data`, and transposes 2-dimensional
results back.

Modelling choices:
* Python scalar arguments are modelled by `PyObj`; Python `float` is
  modelled as a rational number (the code only compares values, it does
  no floating-point arithmetic).
* numpy arrays are modelled by `NDArray`: either a 2-dimensional or a
  3-dimensional array of rationals, a shape together with an index
  function.  `numpy.transpose` reverses the axes.
* The external routine `mne.filter.filter_data` is opaque: it is a
  parameter `ext` of the transform model.
* `Filter._transform` is modelled by `Filter.transformTrace`, which
  returns the result together with the list of calls made to the
  external routine, so that "invokes the routine exactly once with
  these arguments" is expressible.  Python call semantics of
  `filter.filter_data(X, sfreq=sfreq, l_freq=l_freq, h_freq=h_freq, **kwargs)`
  are modelled faithfully: expanding `**kwargs` when `kwargs` is not a
  mapping (in particular `None`, the constructor default) raises
  `TypeError` before the routine is entered, as does a key collision
  with the explicitly named arguments.
-/

namespace Sktime

/-- Python values that can be passed for `sfreq`, `l_freq`, `h_freq` and
`filter_kwargs`.  `floatVal` carries a rational: the code only compares
these values, so the float/rational distinction is irrelevant here. -/
inductive PyObj : Type where
  | intVal : Int → PyObj
  | floatVal : ℚ → PyObj
  | strVal : String → PyObj
  | noneVal : PyObj
  | dictVal : List (String × PyObj) → PyObj

/-- `isinstance(x, (int, float))`. -/
def PyObj.isNumber : PyObj → Bool
  | .intVal _ => true
  | .floatVal _ => true
  | _ => false

/-- `isinstance(x, (int, float, type(None)))`. -/
def PyObj.isNumberOrNone : PyObj → Bool
  | .intVal _ => true
  | .floatVal _ => true
  | .noneVal => true
  | _ => false

/-- `x is None`. -/
def PyObj.isNone : PyObj → Bool
  | .noneVal => true
  | _ => false

/-- Numeric value of a Python scalar; only consulted after an
`isinstance` check has established the argument is numeric. -/
def PyObj.toRat : PyObj → ℚ
  | .intVal n => (n : ℚ)
  | .floatVal q => q
  | _ => 0

/-- Python exceptions the adapter can raise itself. -/
inductive PyError : Type where
  | typeError : PyError
  | valueError : String → PyError
deriving DecidableEq

/-- The four attributes `Filter.__init__` stores on the object. -/
structure Filter : Type where
  sfreq : PyObj
  l_freq : PyObj
  h_freq : PyObj
  filter_kwargs : PyObj

/-- `Filter.__init__(self, sfreq, l_freq, h_freq, filter_kwargs=None)`:
type-check the three scalars, then, when both cutoffs are given, check
positivity and ordering; on success the object holds the four arguments
unchanged. -/
def Filter.init (sfreq l_freq h_freq filter_kwargs : PyObj) :
    Except PyError Filter :=
  if ¬(sfreq.isNumber = true ∧ l_freq.isNumberOrNone = true ∧
        h_freq.isNumberOrNone = true) then
    .error .typeError
  else if l_freq.isNone = false ∧ h_freq.isNone = false then
    if ¬(l_freq.toRat > 0 ∧ h_freq.toRat > 0) then
      .error (.valueError "Negative values not supported")
    else if l_freq.toRat > h_freq.toRat then
      .error (.valueError "High frequency must be higher than low frequency")
    else
      .ok ⟨sfreq, l_freq, h_freq, filter_kwargs⟩
  else
    .ok ⟨sfreq, l_freq, h_freq, filter_kwargs⟩

/-- A numpy array of rationals, 2-dimensional (`np.ndarray`) or
3-dimensional (`numpy3D`), as accepted by `Filter._transform`. -/
inductive NDArray : Type where
  | d2 : (n0 n1 : Nat) → (Fin n0 → Fin n1 → ℚ) → NDArray
  | d3 : (n0 n1 n2 : Nat) → (Fin n0 → Fin n1 → Fin n2 → ℚ) → NDArray

/-- `X.ndim`. -/
def NDArray.ndim : NDArray → Nat
  | .d2 .. => 2
  | .d3 .. => 3

/-- `X.shape`. -/
def NDArray.shape : NDArray → List Nat
  | .d2 n0 n1 _ => [n0, n1]
  | .d3 n0 n1 n2 _ => [n0, n1, n2]

/-- `X.transpose()`: numpy reverses the order of the axes. -/
def NDArray.transpose : NDArray → NDArray
  | .d2 n0 n1 f => .d2 n1 n0 (fun i j => f j i)
  | .d3 n0 n1 n2 f => .d3 n2 n1 n0 (fun i j k => f k j i)

/-- One call to `mne.filter.filter_data`: the positional array, the
three named scalar arguments and the expanded extra keyword
arguments. -/
structure ExtCall : Type where
  arr : NDArray
  sfreq : PyObj
  l_freq : PyObj
  h_freq : PyObj
  kwargs : List (String × PyObj)

/-- Keyword names `filter.filter_data` is already called with
explicitly; a key of `**kwargs` colliding with one of them makes the
call itself raise `TypeError` (duplicate keyword argument). -/
def namedKeys : List String := ["sfreq", "l_freq", "h_freq"]

/-- The signature of the opaque external routine
`mne.filter.filter_data`: array, `sfreq`, `l_freq`, `h_freq`, extra
keyword arguments. -/
abbrev ExtRoutine : Type :=
  NDArray → PyObj → PyObj → PyObj → List (String × PyObj) → NDArray

/-- `Filter._transform(self, X, y=None)`, instrumented with the list of
calls made to the external routine `ext`.  Mirrors the source: transpose
when `X.ndim == 2`, call
`filter.filter_data(X, sfreq=sfreq, l_freq=l_freq, h_freq=h_freq, **kwargs)`,
transpose the result back when it is 2-dimensional.  Expanding
`**kwargs` fails with `TypeError` before the routine runs when
`kwargs` is not a mapping (e.g. `None`) or when a key collides with an
explicit keyword argument. -/
def Filter.transformTrace (ext : ExtRoutine) (self : Filter)
    (X : NDArray) (y : Option NDArray) :
    Except PyError NDArray × List ExtCall :=
  let X1 := if X.ndim = 2 then X.transpose else X
  let sfreq := self.sfreq
  let l_freq := self.l_freq
  let h_freq := self.h_freq
  match self.filter_kwargs with
  | .dictVal kw =>
      if kw.any (fun p => namedKeys.contains p.1) then
        (.error .typeError, [])
      else
        let Xt := ext X1 sfreq l_freq h_freq kw
        (.ok (if Xt.ndim = 2 then Xt.transpose else Xt),
          [⟨X1, sfreq, l_freq, h_freq, kw⟩])
  | _ => (.error .typeError, [])

/-- The value `Filter._transform` returns (or the exception it
raises). -/
def Filter.transform (ext : ExtRoutine) (self : Filter)
    (X : NDArray) (y : Option NDArray) : Except PyError NDArray :=
  (self.transformTrace ext X y).1

/-! Helper lemmas about the embedding. -/

theorem PyObj.isNumberOrNone_of_isNumber (p : PyObj) (h : p.isNumber = true) :
    p.isNumberOrNone = true := by
  cases p <;> simp_all [PyObj.isNumber, PyObj.isNumberOrNone]

theorem PyObj.isNone_eq_false_of_isNumber (p : PyObj) (h : p.isNumber = true) :
    p.isNone = false := by
  cases p <;> simp_all [PyObj.isNumber, PyObj.isNone]

theorem NDArray.shape_transpose_back (A : NDArray) (c t : Nat)
    (h : A.shape = [c, t]) :
    (if A.ndim = 2 then A.transpose else A).shape = [t, c] := by
  cases A with
  | d2 n0 n1 f =>
      simp only [NDArray.shape, List.cons.injEq, and_true] at h
      simp [NDArray.ndim, NDArray.transpose, NDArray.shape, h.1, h.2]
  | d3 n0 n1 n2 f => simp [NDArray.shape] at h

theorem NDArray.eq_of_shape_three (A : NDArray) (p c t : Nat)
    (h : A.shape = [p, c, t]) :
    (if A.ndim = 2 then A.transpose else A) = A := by
  cases A with
  | d2 n0 n1 f => simp [NDArray.shape] at h
  | d3 n0 n1 n2 f => simp [NDArray.ndim]

/-! Claim theorems. -/

/-- Claim C4: construction fails with a type error if and only if `sfreq`
is not an int or float, or `l_freq` is not an int, float, or `None`, or
`h_freq` is not an int, float, or `None`; in particular `sfreq="100"`
raises a type error. -/
theorem C4_type_error_iff :
    (∀ sfreq l_freq h_freq filter_kwargs : PyObj,
      Filter.init sfreq l_freq h_freq filter_kwargs = .error .typeError ↔
        ¬(sfreq.isNumber = true ∧ l_freq.isNumberOrNone = true ∧
            h_freq.isNumberOrNone = true)) ∧
    Filter.init (.strVal "100") (.intVal 1) (.intVal 40) .noneVal
      = .error .typeError := by
  constructor
  · intro sfreq l_freq h_freq filter_kwargs
    unfold Filter.init
    split
    · next h1 => simpa using h1
    · next h1 =>
        rw [not_not] at h1
        split
        · split
          · simp [h1]
          · split
            · simp [h1]
            · simp [h1]
        · simp [h1]
  · rfl

/-- Claim C5: when the type check passes and both cutoffs are provided,
construction fails with a value error whenever either cutoff is
non-positive. -/
theorem C5_nonpositive_cutoff (sfreq l_freq h_freq filter_kwargs : PyObj)
    (hs : sfreq.isNumber = true) (hl : l_freq.isNumber = true)
    (hh : h_freq.isNumber = true)
    (hval : l_freq.toRat ≤ 0 ∨ h_freq.toRat ≤ 0) :
    Filter.init sfreq l_freq h_freq filter_kwargs
      = .error (.valueError "Negative values not supported") := by
  unfold Filter.init
  rw [if_neg (not_not_intro
      ⟨hs, l_freq.isNumberOrNone_of_isNumber hl,
        h_freq.isNumberOrNone_of_isNumber hh⟩)]
  rw [if_pos ⟨l_freq.isNone_eq_false_of_isNumber hl,
      h_freq.isNone_eq_false_of_isNumber hh⟩]
  rw [if_pos]
  rintro ⟨hpl, hph⟩
  rcases hval with hv | hv
  · exact absurd hpl (not_lt.mpr hv)
  · exact absurd hph (not_lt.mpr hv)

/-- Claim C5 witness: `l_freq=-5, h_freq=10` raises the value error. -/
theorem C5_witness :
    Filter.init (.intVal 250) (.intVal (-5)) (.intVal 10) .noneVal
      = .error (.valueError "Negative values not supported") :=
  C5_nonpositive_cutoff _ _ _ _ (by decide) (by decide) (by decide)
    (Or.inl (by norm_num [PyObj.toRat]))

/-- Claim C6: when both cutoffs are provided and both are positive,
construction fails with a value error exactly when `l_freq > h_freq` and
succeeds (storing the arguments) exactly when `l_freq <= h_freq`. -/
theorem C6_cutoff_ordering (sfreq l_freq h_freq filter_kwargs : PyObj)
    (hs : sfreq.isNumber = true) (hl : l_freq.isNumber = true)
    (hh : h_freq.isNumber = true)
    (hlp : 0 < l_freq.toRat) (hhp : 0 < h_freq.toRat) :
    (Filter.init sfreq l_freq h_freq filter_kwargs
        = .ok ⟨sfreq, l_freq, h_freq, filter_kwargs⟩ ↔
      l_freq.toRat ≤ h_freq.toRat) ∧
    (Filter.init sfreq l_freq h_freq filter_kwargs
        = .error
            (.valueError "High frequency must be higher than low frequency") ↔
      h_freq.toRat < l_freq.toRat) := by
  unfold Filter.init
  rw [if_neg (not_not_intro
      ⟨hs, l_freq.isNumberOrNone_of_isNumber hl,
        h_freq.isNumberOrNone_of_isNumber hh⟩)]
  rw [if_pos ⟨l_freq.isNone_eq_false_of_isNumber hl,
      h_freq.isNone_eq_false_of_isNumber hh⟩]
  rw [if_neg (not_not_intro ⟨hlp, hhp⟩)]
  by_cases hlh : l_freq.toRat > h_freq.toRat
  · rw [if_pos hlh]
    constructor
    · simp [not_le.mpr hlh]
    · simp [hlh]
  · rw [if_neg hlh]
    constructor
    · simp [not_lt.mp hlh]
    · simp [hlh]

/-- Claim C6 witness: `l_freq=50, h_freq=10` (both positive) fails with
the ordering value error and does not succeed. -/
theorem C6_witness :
    (Filter.init (.intVal 250) (.intVal 50) (.intVal 10) .noneVal
        = .ok ⟨.intVal 250, .intVal 50, .intVal 10, .noneVal⟩ ↔
      PyObj.toRat (.intVal 50) ≤ PyObj.toRat (.intVal 10)) ∧
    (Filter.init (.intVal 250) (.intVal 50) (.intVal 10) .noneVal
        = .error
            (.valueError "High frequency must be higher than low frequency") ↔
      PyObj.toRat (.intVal 10) < PyObj.toRat (.intVal 50)) :=
  C6_cutoff_ordering _ _ _ _ (by decide) (by decide) (by decide)
    (by norm_num [PyObj.toRat]) (by norm_num [PyObj.toRat])

/-- Claim C7: every successful construction stores the four constructor
arguments unchanged in the four fields. -/
theorem C7_fields_stored_unchanged
    (sfreq l_freq h_freq filter_kwargs : PyObj) (f : Filter)
    (hok : Filter.init sfreq l_freq h_freq filter_kwargs = .ok f) :
    f.sfreq = sfreq ∧ f.l_freq = l_freq ∧ f.h_freq = h_freq ∧
      f.filter_kwargs = filter_kwargs := by
  unfold Filter.init at hok
  split at hok
  · exact absurd hok (by simp)
  · split at hok
    · split at hok
      · exact absurd hok (by simp)
      · split at hok
        · exact absurd hok (by simp)
        · cases hok
          exact ⟨rfl, rfl, rfl, rfl⟩
    · cases hok
      exact ⟨rfl, rfl, rfl, rfl⟩

/-- Claim C7 witness: a concrete successful construction stores its
arguments. -/
theorem C7_witness :
    (⟨.intVal 250, .intVal 1, .intVal 40, .dictVal []⟩ : Filter).sfreq
        = .intVal 250 ∧
    (⟨.intVal 250, .intVal 1, .intVal 40, .dictVal []⟩ : Filter).l_freq
        = .intVal 1 ∧
    (⟨.intVal 250, .intVal 1, .intVal 40, .dictVal []⟩ : Filter).h_freq
        = .intVal 40 ∧
    (⟨.intVal 250, .intVal 1, .intVal 40, .dictVal []⟩ : Filter).filter_kwargs
        = .dictVal [] :=
  C7_fields_stored_unchanged (.intVal 250) (.intVal 1) (.intVal 40)
    (.dictVal []) _ (by rfl)

/-- Claim C10: when exactly one cutoff is provided and the other is
`None`, no positivity check is performed: construction succeeds for any
numeric value of the provided cutoff. -/
theorem C10_single_cutoff_unchecked
    (sfreq l_freq h_freq filter_kwargs : PyObj)
    (hs : sfreq.isNumber = true) :
    (l_freq.isNumber = true →
      Filter.init sfreq l_freq .noneVal filter_kwargs
        = .ok ⟨sfreq, l_freq, .noneVal, filter_kwargs⟩) ∧
    (h_freq.isNumber = true →
      Filter.init sfreq .noneVal h_freq filter_kwargs
        = .ok ⟨sfreq, .noneVal, h_freq, filter_kwargs⟩) := by
  constructor
  · intro hl
    unfold Filter.init
    rw [if_neg (not_not_intro
        ⟨hs, l_freq.isNumberOrNone_of_isNumber hl, rfl⟩)]
    rw [if_neg (by rintro ⟨-, hc⟩; simp [PyObj.isNone] at hc)]
  · intro hh
    unfold Filter.init
    rw [if_neg (not_not_intro
        ⟨hs, rfl, h_freq.isNumberOrNone_of_isNumber hh⟩)]
    rw [if_neg (by rintro ⟨hc, -⟩; simp [PyObj.isNone] at hc)]

/-- Claim C10 witness: `sfreq=250, l_freq=-5, h_freq=None` succeeds
without any error. -/
theorem C10_witness :
    Filter.init (.intVal 250) (.intVal (-5)) .noneVal .noneVal
      = .ok ⟨.intVal 250, .intVal (-5), .noneVal, .noneVal⟩ :=
  (C10_single_cutoff_unchecked (.intVal 250) (.intVal (-5)) (.intVal 7)
    .noneVal (by decide)).1 (by decide)

/-- Claim C1 is refuted by the code: a `Filter` constructed with
`filter_kwargs` left at its default `None` is constructed successfully,
yet `transform` raises `TypeError` (from expanding `**None`) before the
external routine is reached, and the external routine is invoked zero
times, for every input and every external routine. -/
theorem C1_none_kwargs_raises_before_call :
    (Filter.init (.intVal 250) (.floatVal 1) (.floatVal 40) .noneVal
        = .ok ⟨.intVal 250, .floatVal 1, .floatVal 40, .noneVal⟩) ∧
    ∀ (ext : ExtRoutine) (X : NDArray) (y : Option NDArray),
      Filter.transformTrace ext
          ⟨.intVal 250, .floatVal 1, .floatVal 40, .noneVal⟩ X y
        = (.error .typeError, []) := by
  constructor
  · rfl
  · intro ext X y
    cases X <;> rfl

/-- Claim C2: for a 2-dimensional input of shape `(T, C)` and a `Filter`
whose `filter_kwargs` is a mapping with no key colliding with the named
arguments, `transform` hands the external routine the transposed array
of shape `(C, T)` together with the stored `sfreq`, `l_freq`, `h_freq`
and the keyword mapping, exactly once, and, assuming the routine is
shape-preserving, the result is of shape `(T, C)`. -/
theorem C2_two_dim_round_trip (ext : ExtRoutine) (self : Filter)
    (kw : List (String × PyObj)) (T C : Nat) (g : Fin T → Fin C → ℚ)
    (y : Option NDArray)
    (hkw : self.filter_kwargs = .dictVal kw)
    (hkeys : kw.any (fun p => namedKeys.contains p.1) = false)
    (hext : ∀ (A : NDArray) (s l h : PyObj) (ks : List (String × PyObj)),
      (ext A s l h ks).shape = A.shape) :
    (self.transformTrace ext (.d2 T C g) y).2
        = [⟨(NDArray.d2 T C g).transpose, self.sfreq, self.l_freq,
            self.h_freq, kw⟩] ∧
    (NDArray.d2 T C g).transpose.shape = [C, T] ∧
    ∃ Xt : NDArray,
      (self.transformTrace ext (.d2 T C g) y).1 = .ok Xt ∧
        Xt.shape = [T, C] := by
  obtain ⟨s, lf, hf, k⟩ := self
  simp only [Filter.filter_kwargs] at hkw
  subst hkw
  simp only [Filter.transformTrace, NDArray.ndim, NDArray.transpose,
    Filter.sfreq, Filter.l_freq, Filter.h_freq, Filter.filter_kwargs,
    hkeys, Bool.false_eq_true, if_false, if_pos rfl]
  refine ⟨rfl, rfl, _, rfl, ?_⟩
  exact NDArray.shape_transpose_back _ C T (by rw [hext]; rfl)

/-- Claim C2 witness: a concrete 2-by-3 input with the identity routine
round-trips its shape. -/
theorem C2_witness :
    ((⟨.intVal 250, .intVal 1, .intVal 40, .dictVal []⟩ : Filter).transformTrace
          (fun A _ _ _ _ => A) (.d2 2 3 (fun _ _ => 0)) Option.none).2
        = [⟨(NDArray.d2 2 3 (fun _ _ => 0)).transpose, .intVal 250,
            .intVal 1, .intVal 40, []⟩] ∧
    (NDArray.d2 2 3 (fun _ _ => (0 : ℚ))).transpose.shape = [3, 2] ∧
    ∃ Xt : NDArray,
      ((⟨.intVal 250, .intVal 1, .intVal 40, .dictVal []⟩ : Filter).transformTrace
            (fun A _ _ _ _ => A) (.d2 2 3 (fun _ _ => 0)) Option.none).1
          = .ok Xt ∧ Xt.shape = [2, 3] :=
  C2_two_dim_round_trip (fun A _ _ _ _ => A)
    ⟨.intVal 250, .intVal 1, .intVal 40, .dictVal []⟩ [] 2 3
    (fun _ _ => 0) Option.none rfl (by decide) (fun _ _ _ _ _ => rfl)

/-- Claim C3: a 3-dimensional input of shape `(P, C, T)` is handed to
the external routine unchanged, exactly once, and, assuming the routine
is shape-preserving, the routine's result is returned unchanged with
shape `(P, C, T)` (no transpose before or after the call). -/
theorem C3_three_dim_pass_through (ext : ExtRoutine) (self : Filter)
    (kw : List (String × PyObj)) (P C T : Nat)
    (g : Fin P → Fin C → Fin T → ℚ) (y : Option NDArray)
    (hkw : self.filter_kwargs = .dictVal kw)
    (hkeys : kw.any (fun p => namedKeys.contains p.1) = false)
    (hext : ∀ (A : NDArray) (s l h : PyObj) (ks : List (String × PyObj)),
      (ext A s l h ks).shape = A.shape) :
    (self.transformTrace ext (.d3 P C T g) y).2
        = [⟨.d3 P C T g, self.sfreq, self.l_freq, self.h_freq, kw⟩] ∧
    (self.transformTrace ext (.d3 P C T g) y).1
        = .ok (ext (.d3 P C T g) self.sfreq self.l_freq self.h_freq kw) ∧
    (ext (.d3 P C T g) self.sfreq self.l_freq self.h_freq kw).shape
        = [P, C, T] := by
  obtain ⟨s, lf, hf, k⟩ := self
  simp only [Filter.filter_kwargs] at hkw
  subst hkw
  have hX1 : (if (NDArray.d3 P C T g).ndim = 2
      then (NDArray.d3 P C T g).transpose else NDArray.d3 P C T g)
      = NDArray.d3 P C T g := NDArray.eq_of_shape_three _ P C T rfl
  have hsh : (ext (.d3 P C T g) s lf hf kw).shape = [P, C, T] := by
    rw [hext]; rfl
  have hXt := NDArray.eq_of_shape_three _ P C T hsh
  simp only [Filter.transformTrace, Filter.sfreq, Filter.l_freq,
    Filter.h_freq, Filter.filter_kwargs, hkeys, Bool.false_eq_true,
    if_false, hX1, hXt]
  exact ⟨trivial, trivial, hsh⟩

/-- Claim C3 witness: a concrete 2-by-3-by-4 input with the identity
routine passes through with shape unchanged. -/
theorem C3_witness :
    ((⟨.intVal 250, .intVal 1, .intVal 40, .dictVal []⟩ : Filter).transformTrace
          (fun A _ _ _ _ => A) (.d3 2 3 4 (fun _ _ _ => 0)) Option.none).2
        = [⟨.d3 2 3 4 (fun _ _ _ => 0), .intVal 250, .intVal 1,
            .intVal 40, []⟩] ∧
    ((⟨.intVal 250, .intVal 1, .intVal 40, .dictVal []⟩ : Filter).transformTrace
          (fun A _ _ _ _ => A) (.d3 2 3 4 (fun _ _ _ => 0)) Option.none).1
        = .ok ((fun (A : NDArray) (_ _ _ : PyObj)
              (_ : List (String × PyObj)) => A)
            (.d3 2 3 4 (fun _ _ _ => 0)) (.intVal 250) (.intVal 1)
            (.intVal 40) []) ∧
    ((fun (A : NDArray) (_ _ _ : PyObj) (_ : List (String × PyObj)) => A)
          (.d3 2 3 4 (fun _ _ _ => (0 : ℚ))) (.intVal 250) (.intVal 1)
          (.intVal 40) []).shape = [2, 3, 4] :=
  C3_three_dim_pass_through (fun A _ _ _ _ => A)
    ⟨.intVal 250, .intVal 1, .intVal 40, .dictVal []⟩ [] 2 3 4
    (fun _ _ _ => 0) Option.none rfl (by decide) (fun _ _ _ _ _ => rfl)

/-- Claim C8: the output of `transform` is a function of the four stored
configuration fields and the input alone: two filters agreeing on all
four fields produce identical results (and identical external calls) on
identical input, the external routine being a fixed function of its
arguments. -/
theorem C8_deterministic (ext : ExtRoutine) (f1 f2 : Filter)
    (X : NDArray) (y : Option NDArray)
    (h1 : f1.sfreq = f2.sfreq) (h2 : f1.l_freq = f2.l_freq)
    (h3 : f1.h_freq = f2.h_freq)
    (h4 : f1.filter_kwargs = f2.filter_kwargs) :
    f1.transformTrace ext X y = f2.transformTrace ext X y := by
  obtain ⟨s1, l1, hh1, k1⟩ := f1
  obtain ⟨s2, l2, hh2, k2⟩ := f2
  simp only [Filter.sfreq, Filter.l_freq, Filter.h_freq,
    Filter.filter_kwargs] at h1 h2 h3 h4
  subst h1; subst h2; subst h3; subst h4
  rfl

/-- Claim C8 witness: two identically-configured filters give the same
result on a concrete input. -/
theorem C8_witness :
    Filter.transformTrace (fun A _ _ _ _ => A)
        ⟨.intVal 250, .intVal 1, .intVal 40, .dictVal []⟩
        (.d2 2 3 (fun _ _ => 0)) Option.none
      = Filter.transformTrace (fun A _ _ _ _ => A)
        ⟨.intVal 250, .intVal 1, .intVal 40, .dictVal []⟩
        (.d2 2 3 (fun _ _ => 0)) Option.none :=
  C8_deterministic (fun A _ _ _ _ => A)
    ⟨.intVal 250, .intVal 1, .intVal 40, .dictVal []⟩
    ⟨.intVal 250, .intVal 1, .intVal 40, .dictVal []⟩
    (.d2 2 3 (fun _ _ => 0)) Option.none rfl rfl rfl rfl

/-- Claim C9: the optional label argument `y` is never read: for every
input and every two label values the results of `transform` coincide. -/
theorem C9_ignores_y (ext : ExtRoutine) (self : Filter) (X : NDArray)
    (y1 y2 : Option NDArray) :
    self.transform ext X y1 = self.transform ext X y2 := rfl

end Sktime
